import Mathlib

/-!
Verification development for the ytget-gui queue orchestration and
download command pipeline.

The definitions below are a shallow embedding of the Python sources:

* `ytget_gui/workers/download_worker.py` — the `DownloadWorker` class:
  command building (`_build_command`), filename sanitisation
  (`_safe_filename`), shorts/audio/playlist classification, the
  cancellation flag and the terminal-outcome branch of `_on_finished`,
  and the startup-failure path of `run`.
* `main_window.py` — the `MainWindow` queue driver: the queue list,
  `is_downloading` / `queue_paused` flags, `current_download_item`
  pointer, and the handlers `_download_next`, `_on_download_finished`,
  `_start_queue`, `_pause_queue`, `_remove_queue_item`,
  `_move_queue_item`, plus the queue save/load JSON round trip.
* `dialogs/preferences.py` — the subtitle branch of
  `PreferencesDialog._validate`.

Machine strings are Lean `String`s; Python truthiness of a string is
modelled as `≠ ""`; filesystem existence checks that the builder reads
(cookie-file usability) are explicit boolean inputs, as the spec treats
them as part of the builder's input.
-/

set_option maxRecDepth 20000

namespace Ytget

/-- `QueueItem` — the `{url, title, format_code}` record of
`download_worker.py` / the dict items of `main_window.py`. -/
structure QueueItem where
  url : String
  title : String
  format_code : String
deriving DecidableEq, Repr

/-! ### String helpers (substring test, Python-style strip) -/

/-- Membership of `sub` as a contiguous run inside `l`
(Python's `sub in s` on strings, at the character-list level). -/
def listHasSub (sub : List Char) : List Char → Bool
  | [] => sub.isEmpty
  | c :: rest => sub.isPrefixOf (c :: rest) || listHasSub sub rest

/-- Python's `sub in s` substring test. -/
def strContains (s sub : String) : Bool := listHasSub sub.data s.data

/-- Whitespace as matched by Python's `\s` / stripped by `str.strip()`,
restricted to the ASCII range (the sanitizer has already removed
code points below 32 before these are applied, so only the plain
space matters there). -/
def pyIsSpace (c : Char) : Bool :=
  c = ' ' || c = '\t' || c = '\n' || c = '\r' || c.toNat = 11 || c.toNat = 12

/-- Replace every maximal run of whitespace by a single space:
Python's `re.sub(r"\s+", " ", name)`.  The boolean argument records
whether the previous character belonged to a whitespace run. -/
def collapseWs : Bool → List Char → List Char
  | _, [] => []
  | prevWs, c :: rest =>
    if pyIsSpace c then
      if prevWs then collapseWs true rest
      else ' ' :: collapseWs true rest
    else c :: collapseWs false rest

/-- Drop trailing characters drawn from `bad`: Python's `rstrip`. -/
def dropTrailingIn (bad : List Char) (l : List Char) : List Char :=
  (l.reverse.dropWhile (fun c => bad.contains c)).reverse

/-- Python's `str.strip()` on a character list. -/
def stripList (l : List Char) : List Char :=
  ((l.dropWhile pyIsSpace).reverse.dropWhile pyIsSpace).reverse

/-! ### `DownloadWorker._safe_filename` -/

/-- The path-illegal characters replaced by spaces:
`re.sub(r'[\\/:*?"<>|]', " ", name)`. -/
def illegalChars : List Char := ['\\', '/', ':', '*', '?', '\"', '<', '>', '|']

/-- The reserved device names guarded against in `_safe_filename`. -/
def reservedNames : List String :=
  ["CON", "PRN", "AUX", "NUL",
   "COM1", "COM2", "COM3", "COM4", "COM5", "COM6", "COM7", "COM8", "COM9",
   "LPT1", "LPT2", "LPT3", "LPT4", "LPT5", "LPT6", "LPT7", "LPT8", "LPT9"]

/-- `DownloadWorker._safe_filename` from
`ytget_gui/workers/download_worker.py`:
removes code points below 32, replaces path-illegal characters with
spaces, collapses whitespace, strips, right-strips spaces and dots,
appends `_` to a reserved device name, truncates to 180 characters
(right-stripping spaces and dots again), and falls back to
`"Unknown"` on an empty result. -/
def safeFilename (name : String) : String :=
  if name = "" then "Unknown"
  else
    let l1 := name.data.filter (fun c => 32 ≤ c.toNat)
    let l2 := l1.map (fun c => if illegalChars.contains c then ' ' else c)
    let l3 := dropTrailingIn [' ', '.'] (stripList (collapseWs false l2))
    let l4 :=
      if reservedNames.contains (String.mk (l3.map Char.toUpper)) then l3 ++ ['_']
      else l3
    let l5 := if 180 < l4.length then dropTrailingIn [' ', '.'] (l4.take 180) else l4
    if l5 = [] then "Unknown" else String.mk l5

/-! ### Configuration model (`AppSettings` fields read by `_build_command`)

String options model Python strings, with Python truthiness `≠ ""`;
`cookiesFileUsable` models the filesystem check
`s.COOKIES_PATH.exists() and s.COOKIES_PATH.stat().st_size > 0`,
an input of the builder per the spec's contract. -/
structure AppSettings where
  YT_DLP_PATH : String
  FFMPEG_PARENT : String
  DOWNLOADS_DIR : String
  COOKIES_PATH : String
  cookiesFileUsable : Bool
  COOKIES_FROM_BROWSER : String
  PROXY_URL : String
  LIMIT_RATE : String
  RETRIES : Nat
  DATEAFTER : String
  LIVE_FROM_START : Bool
  ENABLE_ARCHIVE : Bool
  ARCHIVE_PATH : String
  PLAYLIST_REVERSE : Bool
  PLAYLIST_ITEMS : String
  CLIP_START : String
  CLIP_END : String
  ORGANIZE_BY_UPLOADER : Bool
  YT_MUSIC_METADATA : Bool
  ADD_METADATA : Bool
  VIDEO_FORMAT : String
  SPONSORBLOCK_CATEGORIES : List String
  CHAPTERS_MODE : String
  WRITE_SUBS : Bool
  SUB_LANGS : String
  WRITE_AUTO_SUBS : Bool
  CONVERT_SUBS_TO_SRT : Bool
  WRITE_THUMBNAIL : Bool
  CONVERT_THUMBNAILS : Bool
  THUMBNAIL_FORMAT : String
  EMBED_THUMBNAIL : Bool
  CUSTOM_FFMPEG_ARGS : String
deriving DecidableEq, Repr

/-! ### Classification helpers of `DownloadWorker` -/

/-- `DownloadWorker.is_short_video`: `"youtube.com/shorts/" in (url or "")`. -/
def isShortVideo (url : String) : Bool := strContains url "youtube.com/shorts/"

/-- `DownloadWorker._is_audio_download`:
`code in ("bestaudio", "playlist_mp3", "youtube_music", "audio_flac")`. -/
def isAudioCode (code : String) : Bool :=
  code = "bestaudio" || code = "playlist_mp3" || code = "youtube_music" ||
  code = "audio_flac"

/-- `is_playlist` in `_build_command`:
`"list=" in it.get("url", "") or format_code in ("playlist_mp3", "youtube_music")`. -/
def isPlaylistItem (it : QueueItem) : Bool :=
  strContains it.url "list=" || it.format_code = "playlist_mp3" ||
  it.format_code = "youtube_music"

/-- `DownloadWorker._should_force_title`:
`(not is_playlist) and no_cookie and no_browser`. -/
def shouldForceTitle (s : AppSettings) (isPlaylist : Bool) : Bool :=
  !isPlaylist && !s.cookiesFileUsable && s.COOKIES_FROM_BROWSER = ""

/-- `pathlib`'s `/` operator, kept abstract as separator insertion. -/
def pjoin (a b : String) : String := a ++ "/" ++ b

/-! ### `DownloadWorker._build_command`, split into the source's
consecutive `cmd.extend` blocks; `buildCommand` concatenates them in
source order. -/

/-- The fixed leading block of `_build_command`. -/
def cmdBase (s : AppSettings) : List String :=
  [s.YT_DLP_PATH, "--no-warnings", "--progress", "--newline",
   "--output-na-placeholder", "Unknown", "--ffmpeg-location", s.FFMPEG_PARENT]

/-- The cookie-file and cookie-from-browser block. -/
def cmdCookies (s : AppSettings) : List String :=
  (if s.cookiesFileUsable then ["--cookies", s.COOKIES_PATH] else []) ++
  (if s.COOKIES_FROM_BROWSER ≠ "" then
    ["--cookies-from-browser", s.COOKIES_FROM_BROWSER] else [])

/-- Proxy, rate limit and the always-present retry count. -/
def cmdNet (s : AppSettings) : List String :=
  (if s.PROXY_URL ≠ "" then ["--proxy", s.PROXY_URL] else []) ++
  (if s.LIMIT_RATE ≠ "" then ["--limit-rate", s.LIMIT_RATE] else []) ++
  ["--retries", toString s.RETRIES]

/-- Date filter, live-from-start, playlist ignore-errors, archive,
playlist reverse/items and clip sections. -/
def cmdFilters (s : AppSettings) (isPlaylist : Bool) : List String :=
  (if s.DATEAFTER ≠ "" then ["--dateafter", s.DATEAFTER] else []) ++
  (if s.LIVE_FROM_START then ["--live-from-start"] else []) ++
  (if isPlaylist then ["--ignore-errors"] else []) ++
  (if s.ENABLE_ARCHIVE then ["--download-archive", s.ARCHIVE_PATH] else []) ++
  (if s.PLAYLIST_REVERSE then ["--playlist-reverse"] else []) ++
  (if s.PLAYLIST_ITEMS ≠ "" then ["--playlist-items", s.PLAYLIST_ITEMS] else []) ++
  (if s.CLIP_START ≠ "" ∧ s.CLIP_END ≠ "" then
    ["--download-sections", "*" ++ s.CLIP_START ++ "-" ++ s.CLIP_END] else [])

/-- The `base` directory of the output template in `_build_command`:
nested under a playlist-title segment for playlists and an uploader
segment when organize-by-uploader is on. -/
def outBase (s : AppSettings) (it : QueueItem) : String :=
  if isPlaylistItem it then
    if s.ORGANIZE_BY_UPLOADER then
      pjoin (pjoin s.DOWNLOADS_DIR "%(playlist_title)s") "%(uploader)s"
    else pjoin s.DOWNLOADS_DIR "%(playlist_title)s"
  else
    if s.ORGANIZE_BY_UPLOADER then pjoin s.DOWNLOADS_DIR "%(uploader)s"
    else s.DOWNLOADS_DIR

/-- The `filename` pattern of the output template in `_build_command`:
the sanitized literal title in the unauthenticated single-item case,
otherwise the artist-title or plain-title fallback. -/
def outFilename (s : AppSettings) (it : QueueItem) : String :=
  if shouldForceTitle s (isPlaylistItem it) then
    safeFilename (if it.title = "" then "Unknown" else it.title) ++ ".%(ext)s"
  else if s.YT_MUSIC_METADATA &&
      (isAudioCode it.format_code || isPlaylistItem it) then
    "%(artist)s - %(title)s.%(ext)s"
  else "%(title)s.%(ext)s"

/-- The full output template (`str(Path(base) / filename)`). -/
def outTmpl (s : AppSettings) (it : QueueItem) : String :=
  pjoin (outBase s it) (outFilename s it)

/-- The `--yes-playlist` / `-o` output block. -/
def cmdOutput (s : AppSettings) (it : QueueItem) : List String :=
  if isPlaylistItem it then ["--yes-playlist", "-o", outTmpl s it]
  else ["-o", outTmpl s it]

/-- `getattr(s, "VIDEO_FORMAT", "").lstrip(".")`. -/
def videoPreferred0 (s : AppSettings) : String :=
  String.mk (s.VIDEO_FORMAT.data.dropWhile (fun c => c = '.'))

/-- `... or "mkv"`: the empty string falls back to `mkv`. -/
def videoPreferred1 (s : AppSettings) : String :=
  if videoPreferred0 s = "" then "mkv" else videoPreferred0 s

/-- The sanitised merge container for video downloads, forced into the
allow-list `{mkv, mp4, webm}`. -/
def mergeFormat (s : AppSettings) : String :=
  if videoPreferred1 s = "mkv" ∨ videoPreferred1 s = "mp4" ∨
      videoPreferred1 s = "webm" then
    videoPreferred1 s
  else "mkv"

/-- The format / post-processing block (audio or video branch). -/
def cmdFormat (s : AppSettings) (it : QueueItem) : List String :=
  let formatCode := it.format_code
  let isFlac := formatCode = "audio_flac"
  if isAudioCode formatCode then
    ["-f", "bestaudio", "--extract-audio",
     "--audio-format", if isFlac then "flac" else "mp3",
     "--embed-thumbnail"] ++
    (if s.ADD_METADATA then ["--add-metadata"] else []) ++
    (if !isFlac then ["--audio-quality", "0"] else []) ++
    (if isFlac then
      ["--postprocessor-args", "ffmpeg:-compression_level 12 -sample_fmt s16"]
     else []) ++
    (if formatCode = "youtube_music" ∧ s.YT_MUSIC_METADATA then
      ["--parse-metadata", "description:(?s)(?P<meta_comment>.+)",
       "--parse-metadata", "%(meta_comment)s:(?P<artist>[^\n]+)",
       "--parse-metadata", "%(meta_comment)s:.+ - (?P<title>[^\n]+)"]
     else [])
  else
    ["-f", if formatCode = "" then "best" else formatCode,
     "--merge-output-format", mergeFormat s] ++
    (if s.ADD_METADATA then ["--add-metadata"] else [])

/-- The SponsorBlock block: applied only with a non-empty category set
and a non-shorts URL. -/
def cmdSponsor (s : AppSettings) (url : String) : List String :=
  if s.SPONSORBLOCK_CATEGORIES ≠ [] ∧ ¬ isShortVideo url then
    ["--sponsorblock-remove", String.intercalate "," s.SPONSORBLOCK_CATEGORIES,
     "--sleep-requests", "1", "--sleep-subtitles", "1"]
  else []

/-- The chapters block. -/
def cmdChapters (s : AppSettings) : List String :=
  if s.CHAPTERS_MODE = "split" then ["--split-chapters"]
  else if s.CHAPTERS_MODE = "embed" then ["--embed-chapters"]
  else []

/-- The subtitles block. -/
def cmdSubs (s : AppSettings) : List String :=
  if s.WRITE_SUBS then
    ["--write-subs"] ++
    (if s.SUB_LANGS ≠ "" then ["--sub-langs", s.SUB_LANGS] else []) ++
    (if s.WRITE_AUTO_SUBS then ["--write-auto-subs"] else []) ++
    (if s.CONVERT_SUBS_TO_SRT then ["--convert-subs", "srt"] else [])
  else []

/-- `getattr(s, "THUMBNAIL_FORMAT", "png") or "png"`. -/
def thumbFmt (s : AppSettings) : String :=
  if s.THUMBNAIL_FORMAT = "" then "png" else s.THUMBNAIL_FORMAT

/-- The thumbnail writing / conversion / embedding block. -/
def cmdThumbs (s : AppSettings) (isAudio : Bool) : List String :=
  (if s.WRITE_THUMBNAIL then ["--write-thumbnail"] else []) ++
  (if s.CONVERT_THUMBNAILS then ["--convert-thumbnails", thumbFmt s] else []) ++
  (if s.EMBED_THUMBNAIL && !isAudio then
    ["--embed-thumbnail", "--postprocessor-args",
     "ffmpeg:-metadata:s:t mimetype=image/" ++ thumbFmt s ++
       " -metadata:s:t filename=cover." ++ thumbFmt s]
   else [])

/-- The custom ffmpeg post-processor block. -/
def cmdCustom (s : AppSettings) : List String :=
  if s.CUSTOM_FFMPEG_ARGS ≠ "" then
    ["--postprocessor-args", "ffmpeg:" ++ s.CUSTOM_FFMPEG_ARGS]
  else []

/-- `DownloadWorker._build_command` of
`ytget_gui/workers/download_worker.py`: the full ordered argument
vector, ending with the target URL. -/
def buildCommand (s : AppSettings) (it : QueueItem) : List String :=
  cmdBase s ++ cmdCookies s ++ cmdNet s ++
  cmdFilters s (isPlaylistItem it) ++ cmdOutput s it ++ cmdFormat s it ++
  cmdSponsor s it.url ++ cmdChapters s ++ cmdSubs s ++
  cmdThumbs s (isAudioCode it.format_code) ++ cmdCustom s ++ [it.url]

/-! ### Process supervisor terminal outcomes (`DownloadWorker.run`,
`cancel`, `_on_finished`) -/

/-- The worker-side cancellation flag (`self._cancel_requested`). -/
structure WorkerState where
  cancelRequested : Bool
deriving DecidableEq, Repr

/-- `DownloadWorker.cancel`: sets the cancellation flag (the process
termination request is a side effect on the external process). -/
def cancel (w : WorkerState) : WorkerState := { w with cancelRequested := true }

/-- The three terminal outcomes of a run. -/
inductive Outcome where
  | succeeded
  | failed (code : Int)
  | cancelled
deriving DecidableEq, Repr

/-- The branch structure of `DownloadWorker._on_finished`: a requested
cancellation wins over the exit code; otherwise code 0 is success and
anything else failure. -/
def onFinishedOutcome (cancelRequested : Bool) (exitCode : Int) : Outcome :=
  if cancelRequested then .cancelled
  else if exitCode = 0 then .succeeded
  else .failed exitCode

/-- The integer payload `_on_finished` passes to `finished.emit`:
`-1` for a cancellation, the exit code otherwise. -/
def finishedCode : Outcome → Int
  | .succeeded => 0
  | .failed c => c
  | .cancelled => -1

/-- One process run as the supervisor observes it: whether
`waitForStarted(4000)` succeeded, whether the `QProcess.finished`
callback is eventually delivered for this run (it stays connected in
every path of `run`), the process exit code, and whether `cancel()`
had been called before the callback ran. -/
structure RunEnv where
  startsInTime : Bool
  finishedDelivered : Bool
  exitCode : Int
  cancelRequested : Bool
deriving DecidableEq, Repr

/-- Terminal `finished` emissions of the startup path of
`DownloadWorker.run`: on a failed `waitForStarted(4000)` it emits
`finished(-1)` and returns. -/
def startupEmits (e : RunEnv) : List Int :=
  if e.startsInTime then [] else [-1]

/-- Terminal `finished` emissions of the `_on_finished` callback,
when it is delivered. -/
def callbackEmits (e : RunEnv) : List Int :=
  if e.finishedDelivered then
    [finishedCode (onFinishedOutcome e.cancelRequested e.exitCode)]
  else []

/-- All terminal signals emitted for one run, in order: the startup
path fires first (inside `run`), the process-finished callback later. -/
def terminalEmits (e : RunEnv) : List Int :=
  startupEmits e ++ callbackEmits e

/-! ### Queue driver (`MainWindow`) -/

/-- The queue-driver state of `MainWindow`: the ordered queue, the
`is_downloading` and `queue_paused` flags and the
`current_download_item` pointer. -/
structure DriverState where
  queue : List QueueItem
  isDownloading : Bool
  queuePaused : Bool
  current : Option QueueItem
deriving DecidableEq, Repr

/-- `MainWindow._download_next`: no-op when paused, already
downloading, or the queue is empty; otherwise marks the head item as
current and starts downloading it. -/
def downloadNext (s : DriverState) : DriverState :=
  if s.queuePaused || s.isDownloading || s.queue.isEmpty then s
  else { s with isDownloading := true, current := s.queue.head? }

/-- `MainWindow._on_download_finished`: clears the downloading flag and
current pointer, pops the head only on exit code 0, then — when not
paused and the queue is non-empty — immediately calls
`_download_next` again. -/
def onDownloadFinished (s : DriverState) (exitCode : Int) : DriverState :=
  let s1 : DriverState := { s with isDownloading := false, current := none }
  let s2 : DriverState :=
    if exitCode = 0 ∧ s1.queue ≠ [] then { s1 with queue := s1.queue.tail }
    else s1
  if ¬ s2.queuePaused ∧ s2.queue ≠ [] then downloadNext s2 else s2

/-- `MainWindow._start_queue`: no-op when already actively running or
the queue is empty; otherwise clears the pause flag and processes the
head item. -/
def startQueue (s : DriverState) : DriverState :=
  if s.isDownloading ∧ ¬ s.queuePaused then s
  else if s.queue = [] then s
  else downloadNext { s with queuePaused := false }

/-- `MainWindow._pause_queue`: no-op when not downloading; otherwise
sets the pause flag (and requests worker cancellation as a side
effect on the worker, reported back later through
`onDownloadFinished`). -/
def pauseQueue (s : DriverState) : DriverState :=
  if ¬ s.isDownloading then s else { s with queuePaused := true }

/-- Adding a fetched item (`MainWindow._on_title_fetched`): appends at
the tail. -/
def addItem (s : DriverState) (it : QueueItem) : DriverState :=
  { s with queue := s.queue ++ [it] }

/-- `MainWindow._remove_queue_item`: bounds-checked; rejected (state
unchanged) when the target equals the current download; otherwise
removes the indexed item. -/
def removeItem (s : DriverState) (idx : Nat) : DriverState :=
  if h : idx < s.queue.length then
    if s.isDownloading ∧ s.current = some (s.queue.get ⟨idx, h⟩) then s
    else { s with queue := s.queue.eraseIdx idx }
  else s

/-- `MainWindow._move_queue_item`: bounds-checked on source and
destination; rejected when either position holds the current
download; otherwise `queue.insert(new_index, queue.pop(index))`. -/
def moveItem (s : DriverState) (idx : Nat) (step : Int) : DriverState :=
  let newI : Int := (idx : Int) + step
  if h : idx < s.queue.length ∧ 0 ≤ newI ∧ newI < (s.queue.length : Int) then
    if s.isDownloading ∧
        (s.current = some (s.queue.get ⟨idx, h.1⟩) ∨
         s.current = some (s.queue.get ⟨newI.toNat, by omega⟩)) then
      s
    else
      let moved :=
        (s.queue.eraseIdx idx).insertIdx newI.toNat (s.queue.get ⟨idx, h.1⟩)
      { s with queue := moved }
  else s

/-- The queue-driver invariant of the spec: whenever a download is
active, the queue is non-empty and the current item is the element at
index 0 of the queue. -/
def Inv (s : DriverState) : Prop :=
  s.isDownloading = true → s.current = s.queue.head? ∧ s.queue ≠ []

instance (s : DriverState) : Decidable (Inv s) := by
  unfold Inv; infer_instance

/-! ### Queue persistence (`_save_queue_to_disk` / `_load_queue_from_disk`) -/

/-- JSON values as relevant to the queue file. -/
inductive JsonVal where
  | jstr (s : String)
  | jnum (n : Int)
  | jbool (b : Bool)
  | jnull
  | jarr (xs : List JsonVal)
  | jobj (fields : List (String × JsonVal))

/-- `json.dump` of one queue-item dict. -/
def itemToJson (it : QueueItem) : JsonVal :=
  .jobj [("url", .jstr it.url), ("title", .jstr it.title),
         ("format_code", .jstr it.format_code)]

/-- `MainWindow._save_queue_to_disk`: refuses an empty queue, otherwise
writes the queue as a JSON array of item records. -/
def saveQueue (q : List QueueItem) : Option JsonVal :=
  if q = [] then none else some (.jarr (q.map itemToJson))

/-- `MainWindow._load_queue_from_disk` after parsing: accepts only a
top-level array (`isinstance(loaded, list)`), rejecting any other
shape with `ValueError("Invalid queue file format.")`. -/
def loadQueue (j : JsonVal) : Except String (List JsonVal) :=
  match j with
  | .jarr xs => .ok xs
  | _ => .error "Invalid queue file format."

/-- Reading one loaded record back as a `QueueItem` (the loaded dicts
are used directly as queue items with these three keys). -/
def jsonToItem (j : JsonVal) : Option QueueItem :=
  match j with
  | .jobj [("url", .jstr u), ("title", .jstr t), ("format_code", .jstr f)] =>
    some ⟨u, t, f⟩
  | _ => none

/-! ### Preferences validation (`PreferencesDialog._validate`, subtitle
branch) -/

/-- Python's `str.split(",")`: split on each comma, keeping empty
pieces (so the empty string yields one empty piece). -/
def pySplitComma : List Char → List (List Char)
  | [] => [[]]
  | c :: rest =>
    match pySplitComma rest with
    | [] => [[]]
    | cur :: others =>
      if c = ',' then [] :: cur :: others else (c :: cur) :: others

/-- The language tokens of `_validate`:
`[x.strip() for x in langs.split(",") if x.strip()]` applied to the
stripped input. -/
def subtitleTokens (langsInput : String) : List String :=
  ((pySplitComma (stripList langsInput.data)).map
    (fun t => String.mk (stripList t))).filter (fun x => x != "")

/-- The subtitle branch of `PreferencesDialog._validate`: with
subtitles enabled, an empty (stripped) language string is rejected,
and the token list must be non-empty with every token 2–3 characters
long. -/
def validateSubtitles (enabled : Bool) (langsInput : String) : Bool :=
  if enabled then
    if stripList langsInput.data = [] then false
    else
      let tokens := subtitleTokens langsInput
      if tokens.isEmpty then false
      else tokens.all fun x => decide (2 ≤ x.length) && decide (x.length ≤ 3)
  else true

/-! ### Auxiliary definitions for the theorems below -/

/-- The user- or item-supplied strings that appear verbatim as value
arguments of the built command (everything except fixed flag literals
and the strings built with a fixed prefix or separator). -/
def settingsStrings (s : AppSettings) (it : QueueItem) : List String :=
  [s.YT_DLP_PATH, s.FFMPEG_PARENT, s.COOKIES_PATH, s.COOKIES_FROM_BROWSER,
   s.PROXY_URL, s.LIMIT_RATE, toString s.RETRIES, s.DATEAFTER, s.ARCHIVE_PATH,
   s.PLAYLIST_ITEMS, s.SUB_LANGS, s.THUMBNAIL_FORMAT, it.format_code, it.url]

/-- A baseline configuration used for concrete evaluations. -/
def sBase : AppSettings where
  YT_DLP_PATH := "yt-dlp"
  FFMPEG_PARENT := "bin"
  DOWNLOADS_DIR := "dl"
  COOKIES_PATH := "cookies.txt"
  cookiesFileUsable := false
  COOKIES_FROM_BROWSER := ""
  PROXY_URL := ""
  LIMIT_RATE := ""
  RETRIES := 10
  DATEAFTER := ""
  LIVE_FROM_START := false
  ENABLE_ARCHIVE := false
  ARCHIVE_PATH := ""
  PLAYLIST_REVERSE := false
  PLAYLIST_ITEMS := ""
  CLIP_START := ""
  CLIP_END := ""
  ORGANIZE_BY_UPLOADER := false
  YT_MUSIC_METADATA := false
  ADD_METADATA := false
  VIDEO_FORMAT := ""
  SPONSORBLOCK_CATEGORIES := []
  CHAPTERS_MODE := "none"
  WRITE_SUBS := false
  SUB_LANGS := ""
  WRITE_AUTO_SUBS := false
  CONVERT_SUBS_TO_SRT := false
  WRITE_THUMBNAIL := false
  CONVERT_THUMBNAILS := false
  THUMBNAIL_FORMAT := ""
  EMBED_THUMBNAIL := false
  CUSTOM_FFMPEG_ARGS := ""

/-- A configuration with both a usable cookie file and a configured
cookie browser. -/
def sBoth : AppSettings :=
  { sBase with cookiesFileUsable := true, COOKIES_FROM_BROWSER := "firefox" }

/-- A configuration with SponsorBlock categories configured. -/
def sSponsor : AppSettings :=
  { sBase with SPONSORBLOCK_CATEGORIES := ["sponsor", "intro"] }

/-- An ordinary single-video queue item. -/
def itPlain : QueueItem where
  url := "https://www.youtube.com/watch?v=abc"
  title := "A Title"
  format_code := "bestvideo"

/-- A second distinct queue item. -/
def itPlain2 : QueueItem where
  url := "https://www.youtube.com/watch?v=def"
  title := "Other"
  format_code := "bestaudio"

/-- A shorts-URL queue item. -/
def itShort : QueueItem where
  url := "https://www.youtube.com/shorts/xyz"
  title := "Short"
  format_code := "bestvideo"

/-- A playlist queue item. -/
def itList : QueueItem where
  url := "https://www.youtube.com/playlist?list=PL1"
  title := "List"
  format_code := "bestaudio"

/-- A driver state mid-download of `itPlain`, not paused. -/
def stRun : DriverState where
  queue := [itPlain, itPlain2]
  isDownloading := true
  queuePaused := false
  current := some itPlain

/-- A driver state mid-download of `itPlain`, paused. -/
def stPaused : DriverState where
  queue := [itPlain, itPlain2]
  isDownloading := true
  queuePaused := true
  current := some itPlain

/-- The `_safe_filename` input that exposes the reserved-name
truncation gap: `"CON"`, 177 dots, then ten `X` characters. -/
def c9Input : String :=
  "CON" ++ String.mk (List.replicate 177 '.') ++ "XXXXXXXXXX"

/-! ## Helper lemmas -/

theorem memChar_append_left (a b : String) (c : Char) (h : c ∈ a.data) :
    c ∈ (a ++ b).data := by
  rw [String.data_append]; exact List.mem_append_left _ h

theorem memChar_append_right (a b : String) (c : Char) (h : c ∈ b.data) :
    c ∈ (a ++ b).data := by
  rw [String.data_append]; exact List.mem_append_right _ h

/-- Two strings differ when some character occurs in one but not the
other. -/
theorem ne_of_memChar (s t : String) (c : Char) (h1 : c ∈ t.data)
    (h2 : c ∉ s.data) : s ≠ t := by
  intro h
  exact h2 (h ▸ h1)

theorem sb_ne_pjoin (a b : String) :
    "--sponsorblock-remove" ≠ pjoin a b := by
  refine ne_of_memChar _ _ '/' ?_ (by decide)
  unfold pjoin
  exact memChar_append_left _ _ _ (memChar_append_right _ _ _ (by decide))

theorem sb_ne_star (x y : String) :
    "--sponsorblock-remove" ≠ "*" ++ x ++ "-" ++ y := by
  refine ne_of_memChar _ _ '*' ?_ (by decide)
  exact memChar_append_left _ _ _
    (memChar_append_left _ _ _ (memChar_append_left _ _ _ (by decide)))

theorem sb_ne_ffmpegPre (x : String) :
    "--sponsorblock-remove" ≠ "ffmpeg:" ++ x := by
  refine ne_of_memChar _ _ ':' ?_ (by decide)
  exact memChar_append_left _ _ _ (by decide)

theorem sb_ne_meta (a b : String) :
    "--sponsorblock-remove" ≠
      "ffmpeg:-metadata:s:t mimetype=image/" ++ a ++
        " -metadata:s:t filename=cover." ++ b := by
  refine ne_of_memChar _ _ ':' ?_ (by decide)
  exact memChar_append_left _ _ _
    (memChar_append_left _ _ _ (memChar_append_left _ _ _ (by decide)))

theorem sb_ne_mergeFormat (s : AppSettings) :
    "--sponsorblock-remove" ≠ mergeFormat s := by
  unfold mergeFormat
  split
  · next h => rcases h with h | h | h <;> rw [h] <;> decide
  · decide

theorem sb_ne_outTmpl (s : AppSettings) (it : QueueItem) :
    "--sponsorblock-remove" ≠ outTmpl s it := by
  unfold outTmpl
  exact sb_ne_pjoin _ _

/-- Elements of a conditional block are elements of its non-empty
branch. -/
theorem sbnm_ite (c : Prop) [Decidable c] (l : List String) (x : String)
    (h : x ∉ l) : x ∉ (if c then l else []) := by
  split
  · exact h
  · simp

theorem sbnm_append {x : String} {l1 l2 : List String} (h1 : x ∉ l1)
    (h2 : x ∉ l2) : x ∉ l1 ++ l2 :=
  fun h => (List.mem_append.mp h).elim (fun a => h1 a) (fun b => h2 b)

/-- The SponsorBlock remove flag never appears in a command whose
SponsorBlock block is empty, provided none of the user-supplied value
strings is itself that flag. -/
theorem sb_notin_buildCommand (s : AppSettings) (it : QueueItem)
    (hsb : cmdSponsor s it.url = [])
    (hcol : "--sponsorblock-remove" ∉ settingsStrings s it) :
    "--sponsorblock-remove" ∉ buildCommand s it := by
  simp only [settingsStrings, List.mem_cons, List.not_mem_nil, or_false] at hcol
  push_neg at hcol
  obtain ⟨c1, c2, c3, c4, c5, c6, c7, c8, c9, c10, c11, c12, c13, c14⟩ := hcol
  unfold buildCommand
  rw [hsb]
  simp [cmdBase, cmdCookies, cmdNet, cmdFilters, cmdOutput, cmdFormat,
    cmdChapters, cmdSubs, cmdThumbs, cmdCustom, thumbFmt,
    c1, c2, c3, c4, c5, c6, c7, c8, c9, c10, c11, c12, c13, c14,
    sb_ne_star, sb_ne_outTmpl, sb_ne_ffmpegPre, sb_ne_meta, sb_ne_mergeFormat]
  refine ⟨?_, ?_, ?_, ?_⟩
  · split <;> simp [sb_ne_outTmpl]
  · split
    · split_ifs <;> simp
    · split_ifs <;> simp [c13, sb_ne_mergeFormat]
  · split_ifs <;> simp
  · intro h
    split <;> simp [c12]

/-- A shorts URL empties the SponsorBlock block. -/
theorem cmdSponsor_shorts (s : AppSettings) (url : String)
    (h : isShortVideo url = true) : cmdSponsor s url = [] := by
  simp [cmdSponsor, h]

theorem listHasSub_nil (l : List Char) : listHasSub [] l = true := by
  induction l with
  | nil => rfl
  | cons c t ih => simp [listHasSub, List.isPrefixOf]

theorem isPrefixOf_append_self (a b : List Char) :
    a.isPrefixOf (a ++ b) = true := by
  induction a with
  | nil => simp [List.isPrefixOf]
  | cons c t ih => simp [List.isPrefixOf, ih]

theorem listHasSub_append_mid (pre sub post : List Char) :
    listHasSub sub (pre ++ (sub ++ post)) = true := by
  induction pre with
  | nil =>
    cases sub with
    | nil => simpa using listHasSub_nil post
    | cons c t => simp [listHasSub, isPrefixOf_append_self]
  | cons c t ih => simp [listHasSub, ih]

/-- A string whose character data surrounds `m.data` contains `m`. -/
theorem strContains_of_data (y m : String) (pre post : List Char)
    (h : y.data = pre ++ (m.data ++ post)) : strContains y m = true := by
  unfold strContains
  rw [h]
  exact listHasSub_append_mid _ _ _

/-- For playlist items the output template always carries the
playlist-title segment. -/
theorem outTmpl_playlist_marker (s : AppSettings) (it : QueueItem)
    (hpl : isPlaylistItem it = true) :
    strContains (outTmpl s it) "%(playlist_title)s" = true := by
  unfold outTmpl outBase pjoin
  rw [hpl]
  simp only [if_true]
  by_cases ho : s.ORGANIZE_BY_UPLOADER
  · simp only [ho, if_true]
    refine strContains_of_data _ _ (s.DOWNLOADS_DIR.data ++ "/".data)
      ("/".data ++ "%(uploader)s".data ++ ("/".data ++ (outFilename s it).data))
      ?_
    simp [String.data_append, List.append_assoc]
  · simp only [ho, if_false]
    refine strContains_of_data _ _ (s.DOWNLOADS_DIR.data ++ "/".data)
      ("/".data ++ (outFilename s it).data) ?_
    simp [String.data_append, List.append_assoc]

/-! ## Claim theorems -/

/-- C2 counterexample: with a usable cookie file *and* a configured
cookie browser, the built command contains both the cookie-file flag
and the cookie-from-browser flag — they are not mutually exclusive,
and the file path is used even though the browser name is non-empty. -/
theorem cookie_flags_both_present_cex :
    sBoth.COOKIES_FROM_BROWSER ≠ "" ∧
    "--cookies" ∈ buildCommand sBoth itPlain ∧
    "--cookies-from-browser" ∈ buildCommand sBoth itPlain := by decide

/-- C2 (amended): the cookie-file flag is appended whenever the cookie
file exists and is non-empty, and the cookie-from-browser flag
whenever a browser name is configured — independently of each other,
so both can be present in the same command. -/
theorem cookie_flags_independent (s : AppSettings) (it : QueueItem)
    (hfile : s.cookiesFileUsable = true) (hbr : s.COOKIES_FROM_BROWSER ≠ "") :
    "--cookies" ∈ buildCommand s it ∧
    "--cookies-from-browser" ∈ buildCommand s it := by
  unfold buildCommand cmdCookies
  constructor <;> simp [hfile, hbr]

/-- C2 witness: the amended theorem at a concrete configuration. -/
theorem cookie_flags_independent_witness :
    "--cookies" ∈ buildCommand sBoth itPlain ∧
    "--cookies-from-browser" ∈ buildCommand sBoth itPlain :=
  cookie_flags_independent sBoth itPlain (by decide) (by decide)

/-- C4: whenever `cancel()` was called before the process-finished
callback ran, the reported terminal outcome is `Cancelled` — never
`Succeeded` and never `Failed` — for every exit code, including 0. -/
theorem cancel_reports_cancelled (w : WorkerState) (code : Int) :
    onFinishedOutcome (cancel w).cancelRequested code = .cancelled ∧
    onFinishedOutcome (cancel w).cancelRequested code ≠ .succeeded ∧
    ∀ c : Int, onFinishedOutcome (cancel w).cancelRequested code ≠ .failed c := by
  refine ⟨rfl, ?_, fun c => ?_⟩ <;> simp [cancel, onFinishedOutcome]

/-- C5: SponsorBlock flags are exempt for shorts URLs regardless of the
configured categories, and the remove flag can only appear when at
least one category is configured.  The hypothesis rules out the
degenerate case of a user-supplied value string being the flag
literal itself. -/
theorem sponsorblock_shorts_exempt (s : AppSettings) (it : QueueItem)
    (hcol : "--sponsorblock-remove" ∉ settingsStrings s it) :
    (isShortVideo it.url = true → "--sponsorblock-remove" ∉ buildCommand s it) ∧
    ("--sponsorblock-remove" ∈ buildCommand s it →
      s.SPONSORBLOCK_CATEGORIES ≠ []) := by
  constructor
  · intro h
    exact sb_notin_buildCommand s it (cmdSponsor_shorts s it.url h) hcol
  · intro hmem hcats
    exact sb_notin_buildCommand s it (by simp [cmdSponsor, hcats]) hcol hmem

/-- C5 witness: with SponsorBlock categories configured and a shorts
URL, the remove flag is absent from the built command. -/
theorem sponsorblock_shorts_exempt_witness :
    isShortVideo itShort.url = true ∧
    "--sponsorblock-remove" ∉ buildCommand sSponsor itShort :=
  ⟨by decide,
   (sponsorblock_shorts_exempt sSponsor itShort (by decide)).1 (by decide)⟩

/-- C6: every playlist item yields a command with the
playlist-acceptance flag immediately followed by the output template
option, whose template contains the playlist-title path segment. -/
theorem playlist_flags_in_command (s : AppSettings) (it : QueueItem)
    (hpl : isPlaylistItem it = true) :
    (∃ pre post, buildCommand s it =
      pre ++ ("--yes-playlist" :: "-o" :: outTmpl s it :: post)) ∧
    strContains (outTmpl s it) "%(playlist_title)s" = true := by
  refine ⟨⟨cmdBase s ++ cmdCookies s ++ cmdNet s ++ cmdFilters s true,
    cmdFormat s it ++ cmdSponsor s it.url ++ cmdChapters s ++ cmdSubs s ++
      cmdThumbs s (isAudioCode it.format_code) ++ cmdCustom s ++ [it.url], ?_⟩,
    outTmpl_playlist_marker s it hpl⟩
  simp [buildCommand, cmdOutput, hpl, List.append_assoc]

/-- C6 witness: the theorem at a concrete playlist item. -/
theorem playlist_flags_in_command_witness :
    isPlaylistItem itList = true ∧
    strContains (outTmpl sBase itList) "%(playlist_title)s" = true ∧
    ∃ pre post, buildCommand sBase itList =
      pre ++ ("--yes-playlist" :: "-o" :: outTmpl sBase itList :: post) := by
  have h := playlist_flags_in_command sBase itList (by decide)
  exact ⟨by decide, h.2, h.1⟩

/-- C8: the preferences validator rejects subtitles enabled with an
empty language list, and accepts exactly when the token list is
non-empty with every language code 2–3 characters long (so a
successful validation always exhibits at least one such code). -/
theorem subtitle_validation (langs : String) :
    validateSubtitles true "" = false ∧
    (validateSubtitles true langs = true ↔
      subtitleTokens langs ≠ [] ∧
      ∀ t ∈ subtitleTokens langs, 2 ≤ t.length ∧ t.length ≤ 3) := by
  refine ⟨by decide, ?_⟩
  unfold validateSubtitles
  by_cases he : stripList langs.data = []
  · have ht : subtitleTokens langs = [] := by
      unfold subtitleTokens
      rw [he]
      rfl
    simp [he, ht]
  · by_cases hn : (subtitleTokens langs).isEmpty
    · simp [he, hn, List.isEmpty_iff.mp hn]
    · have hne : subtitleTokens langs ≠ [] := fun hnil => by simp [hnil] at hn
      simp [he, hn, hne, List.all_eq_true]

/-- C8 witness: the validator accepts a concrete two-language input,
which indeed carries codes of 2–3 characters. -/
theorem subtitle_validation_witness :
    validateSubtitles true "en,fra" = true :=
  (subtitle_validation "en,fra").2.mpr (by decide)

/-- C9 (code bug): on the 190-character input `"CON" + "."*177 + "X"*10`
the sanitizer returns exactly the reserved device name `"CON"`,
because the 180-character truncation (and its trailing-dot strip)
happens after the reserved-name check.  All other inputs of the claim
are unaffected; this input violates the reserved-name clause. -/
theorem safeFilename_reserved_after_truncation :
    safeFilename c9Input = "CON" ∧ reservedNames.contains "CON" = true := by
  constructor
  · decide
  · decide

/-- C3 (code bug): a run whose process fails the bounded startup wait
but whose process-finished callback is later delivered emits two
terminal signals (`-1` from the startup path, then the exit code from
`_on_finished`), contradicting the exactly-once guarantee. -/
theorem double_terminal_signal :
    terminalEmits ⟨false, true, 0, false⟩ = [-1, 0] ∧
    (terminalEmits ⟨false, true, 0, false⟩).length ≠ 1 := by decide

/-- C1 counterexample: after a non-zero exit with the queue not paused
(a plain execution failure, no user cancellation), the driver is
downloading again and the queue is *not* paused — `_download_next`
restarts the head item immediately instead of auto-pausing. -/
theorem failure_no_autopause_cex :
    (onDownloadFinished stRun 1).queuePaused = false ∧
    (onDownloadFinished stRun 1).isDownloading = true := by decide

/-- C1 (amended): on a non-zero exit the item is left in place (the
queue, hence its head, is unchanged — no pop, no advance to another
item) and the pause flag is unchanged; when the queue was paused
(the cancellation path) no download is running afterwards until
`start()` resumes, but when it was not paused the driver immediately
starts a new download of the same head item. -/
theorem nonzero_exit_keeps_item (s : DriverState) (code : Int)
    (h : code ≠ 0) :
    (onDownloadFinished s code).queue = s.queue ∧
    (onDownloadFinished s code).queuePaused = s.queuePaused ∧
    (s.queuePaused = true → (onDownloadFinished s code).isDownloading = false) ∧
    (s.queuePaused = false → s.queue ≠ [] →
      (onDownloadFinished s code).isDownloading = true ∧
      (onDownloadFinished s code).current = s.queue.head?) := by
  unfold onDownloadFinished downloadNext
  by_cases hp : s.queuePaused <;> by_cases hq : s.queue = [] <;>
    simp [h, hp, hq, List.isEmpty_iff]

/-- C1 witness: the amended theorem at the concrete running state. -/
theorem nonzero_exit_keeps_item_witness :
    (onDownloadFinished stRun 1).queue = stRun.queue ∧
    (onDownloadFinished stRun 1).queuePaused = stRun.queuePaused ∧
    (stRun.queuePaused = true →
      (onDownloadFinished stRun 1).isDownloading = false) ∧
    (stRun.queuePaused = false → stRun.queue ≠ [] →
      (onDownloadFinished stRun 1).isDownloading = true ∧
      (onDownloadFinished stRun 1).current = stRun.queue.head?) :=
  nonzero_exit_keeps_item stRun 1 (by decide)



theorem head?_eq_some_get_zero (l : List QueueItem) (h : 0 < l.length) :
    l.head? = some (l.get ⟨0, h⟩) := by
  cases l with
  | nil => simp at h
  | cons a t => rfl

theorem head?_eraseIdx_of_ne_zero (l : List QueueItem) (i : Nat) (h : i ≠ 0) :
    (l.eraseIdx i).head? = l.head? := by
  cases l with
  | nil => simp
  | cons a t =>
    cases i with
    | zero => exact absurd rfl h
    | succ j => rfl

theorem head?_insertIdx_of_ne_zero (l : List QueueItem) (i : Nat)
    (x : QueueItem) (h : i ≠ 0) : (l.insertIdx i x).head? = l.head? := by
  cases l with
  | nil =>
    cases i with
    | zero => exact absurd rfl h
    | succ j => simp
  | cons a t =>
    cases i with
    | zero => exact absurd rfl h
    | succ j => simp

theorem ne_nil_of_head?_eq {l l' : List QueueItem} (h : l'.head? = l.head?)
    (hl : l ≠ []) : l' ≠ [] := by
  intro h0
  rw [h0] at h
  cases l with
  | nil => exact hl rfl
  | cons a t => simp at h

theorem inv_addItem (s : DriverState) (it : QueueItem) (hs : Inv s) :
    Inv (addItem s it) := by
  intro hd
  obtain ⟨hc, hq⟩ := hs hd
  refine ⟨?_, by simp [addItem]⟩
  show s.current = (s.queue ++ [it]).head?
  cases hqq : s.queue with
  | nil => exact absurd hqq hq
  | cons a t => rw [hqq] at hc; simpa using hc

theorem inv_downloadNext (s : DriverState) (hs : Inv s) :
    Inv (downloadNext s) := by
  unfold downloadNext
  split
  · exact hs
  · next hcond =>
    refine fun _ => ⟨rfl, fun hq => ?_⟩
    simp at hcond hq
    exact hcond.2 hq

theorem inv_of_not_downloading (b : DriverState) (hb : b.isDownloading = false) :
    Inv b := fun hd => by rw [hd] at hb; cases hb

theorem inv_onDownloadFinished (s : DriverState) (code : Int) :
    Inv (onDownloadFinished s code) := by
  unfold onDownloadFinished
  dsimp only
  split <;> split
  all_goals first
    | exact inv_downloadNext _ (inv_of_not_downloading _ rfl)
    | exact inv_of_not_downloading _ rfl

theorem inv_startQueue (s : DriverState) (hs : Inv s) : Inv (startQueue s) := by
  unfold startQueue
  split
  · exact hs
  · split
    · exact hs
    · exact inv_downloadNext _ (fun hd => hs hd)

theorem inv_pauseQueue (s : DriverState) (hs : Inv s) : Inv (pauseQueue s) := by
  unfold pauseQueue
  split
  · exact hs
  · exact fun hd => hs hd

theorem inv_removeItem (s : DriverState) (idx : Nat) (hs : Inv s) :
    Inv (removeItem s idx) := by
  unfold removeItem
  split
  · next h =>
    split
    · exact hs
    · next hrej =>
      intro hd
      obtain ⟨hc, hq⟩ := hs hd
      have hidx : idx ≠ 0 := by
        intro h0
        subst h0
        exact hrej ⟨hd, by rw [hc]; exact head?_eq_some_get_zero _ h⟩
      have hh := head?_eraseIdx_of_ne_zero s.queue idx hidx
      exact ⟨by rw [hc]; exact hh.symm, ne_nil_of_head?_eq hh hq⟩
  · exact hs

theorem inv_moveItem (s : DriverState) (idx : Nat) (step : Int) (hs : Inv s) :
    Inv (moveItem s idx step) := by
  unfold moveItem
  dsimp only
  split
  · next h =>
    split
    · exact hs
    · next hrej =>
      intro hd
      obtain ⟨hc, hq⟩ := hs hd
      push_neg at hrej
      obtain ⟨hb1, hb2⟩ := hrej hd
      have hidx : idx ≠ 0 := by
        intro h0
        subst h0
        exact hb1 (by rw [hc]; exact head?_eq_some_get_zero _ h.1)
      have hnew : ((idx : Int) + step).toNat ≠ 0 := by
        intro h0
        apply hb2
        rw [hc]
        simp only [h0]
        exact head?_eq_some_get_zero _ (by omega)
      have hh : (((s.queue.eraseIdx idx).insertIdx ((idx : Int) + step).toNat
          (s.queue.get ⟨idx, h.1⟩)).head?) = s.queue.head? := by
        rw [head?_insertIdx_of_ne_zero _ _ _ hnew,
          head?_eraseIdx_of_ne_zero _ _ hidx]
      exact ⟨by rw [hc]; exact hh.symm, ne_nil_of_head?_eq hh hq⟩
  · exact hs



theorem remove_current_rejected (s : DriverState) (idx : Nat)
    (h : idx < s.queue.length) (hd : s.isDownloading = true)
    (hc : s.current = some (s.queue.get ⟨idx, h⟩)) : removeItem s idx = s := by
  unfold removeItem
  rw [dif_pos h, if_pos ⟨hd, hc⟩]

theorem move_current_rejected (s : DriverState) (idx : Nat) (step : Int)
    (h : idx < s.queue.length ∧ 0 ≤ (idx : Int) + step ∧
      (idx : Int) + step < (s.queue.length : Int))
    (hd : s.isDownloading = true)
    (hc : s.current = some (s.queue.get ⟨idx, h.1⟩)) : moveItem s idx step = s := by
  unfold moveItem
  dsimp only
  rw [dif_pos h, if_pos ⟨hd, Or.inl hc⟩]

theorem success_pops_current (s : DriverState) (c : QueueItem) (hs : Inv s)
    (hd : s.isDownloading = true) (hc : s.current = some c) :
    s.queue.head? = some c ∧ (onDownloadFinished s 0).queue = s.queue.tail := by
  obtain ⟨hch, hq⟩ := hs hd
  refine ⟨by rw [← hch, hc], ?_⟩
  unfold onDownloadFinished
  dsimp only
  rw [if_pos (show (0 : Int) = 0 ∧ s.queue ≠ [] from ⟨rfl, hq⟩)]
  split
  · unfold downloadNext
    split
    · rfl
    · rfl
  · rfl

theorem itemToJson_roundtrip (it : QueueItem) :
    jsonToItem (itemToJson it) = some it := rfl

theorem mapM_itemToJson (q : List QueueItem) :
    (q.map itemToJson).mapM jsonToItem = some q := by
  induction q with
  | nil => rfl
  | cons a t ih => simp only [List.map_cons, List.mapM_cons, itemToJson_roundtrip, ih, Option.bind_eq_bind, Option.some_bind]; rfl

theorem queue_save_load_roundtrip :
    (∀ q : List QueueItem, q ≠ [] →
      ∃ j, saveQueue q = some j ∧
        loadQueue j = Except.ok (q.map itemToJson) ∧
        (q.map itemToJson).mapM jsonToItem = some q) ∧
    (∀ j : JsonVal, (∀ xs, j ≠ JsonVal.jarr xs) →
      loadQueue j = Except.error "Invalid queue file format.") := by
  constructor
  · intro q hq
    exact ⟨JsonVal.jarr (q.map itemToJson), by simp [saveQueue, hq], rfl,
      mapM_itemToJson q⟩
  · intro j hj
    cases j <;> first | rfl | exact absurd rfl (hj _)


/-- C10: the queue-driver invariant (while downloading, the current
item is the head at index 0 of a non-empty queue) is preserved by
every operation; removing or moving the current item is rejected
unchanged; and on a successful finish the pop at index 0 removes
exactly the item that was downloaded. -/
theorem queue_driver_invariant :
    (∀ (s : DriverState) (it : QueueItem), Inv s → Inv (addItem s it)) ∧
    (∀ s : DriverState, Inv s → Inv (startQueue s)) ∧
    (∀ s : DriverState, Inv s → Inv (pauseQueue s)) ∧
    (∀ s : DriverState, Inv s → Inv (downloadNext s)) ∧
    (∀ (s : DriverState) (code : Int), Inv (onDownloadFinished s code)) ∧
    (∀ (s : DriverState) (idx : Nat), Inv s → Inv (removeItem s idx)) ∧
    (∀ (s : DriverState) (idx : Nat) (step : Int), Inv s →
      Inv (moveItem s idx step)) ∧
    (∀ (s : DriverState) (idx : Nat) (h : idx < s.queue.length),
      s.isDownloading = true → s.current = some (s.queue.get ⟨idx, h⟩) →
      removeItem s idx = s) ∧
    (∀ (s : DriverState) (idx : Nat) (step : Int)
      (h : idx < s.queue.length ∧ 0 ≤ (idx : Int) + step ∧
        (idx : Int) + step < (s.queue.length : Int)),
      s.isDownloading = true → s.current = some (s.queue.get ⟨idx, h.1⟩) →
      moveItem s idx step = s) ∧
    (∀ (s : DriverState) (c : QueueItem), Inv s → s.isDownloading = true →
      s.current = some c →
      s.queue.head? = some c ∧ (onDownloadFinished s 0).queue = s.queue.tail) :=
  ⟨inv_addItem, inv_startQueue, inv_pauseQueue, inv_downloadNext,
   inv_onDownloadFinished, inv_removeItem, inv_moveItem,
   remove_current_rejected, move_current_rejected, success_pops_current⟩

/-- C10 witness: the invariant clauses at a concrete downloading
state. -/
theorem queue_driver_invariant_witness :
    Inv (addItem stRun itList) ∧
    removeItem stRun 0 = stRun ∧
    moveItem stRun 0 1 = stRun ∧
    stRun.queue.head? = some itPlain ∧
    (onDownloadFinished stRun 0).queue = stRun.queue.tail :=
  ⟨queue_driver_invariant.1 stRun itList (by decide),
   queue_driver_invariant.2.2.2.2.2.2.2.1 stRun 0 (by decide) (by decide)
     (by decide),
   queue_driver_invariant.2.2.2.2.2.2.2.2.1 stRun 0 1
     ⟨by decide, by decide, by decide⟩ (by decide) (by decide),
   (queue_driver_invariant.2.2.2.2.2.2.2.2.2 stRun itPlain (by decide)
     (by decide) (by decide)).1,
   (queue_driver_invariant.2.2.2.2.2.2.2.2.2 stRun itPlain (by decide)
     (by decide) (by decide)).2⟩

/-- C7: saving a non-empty queue and loading the file reproduces the
same ordered sequence of queue-item records, and loading rejects any
top-level JSON shape that is not an array. -/
theorem queue_roundtrip :
    (∀ q : List QueueItem, q ≠ [] →
      ∃ j, saveQueue q = some j ∧
        loadQueue j = Except.ok (q.map itemToJson) ∧
        (q.map itemToJson).mapM jsonToItem = some q) ∧
    (∀ j : JsonVal, (∀ xs, j ≠ JsonVal.jarr xs) →
      loadQueue j = Except.error "Invalid queue file format.") :=
  queue_save_load_roundtrip

/-- C7 witness: the round trip at a concrete two-item queue, plus the
rejection of a non-array file. -/
theorem queue_roundtrip_witness :
    (∃ j, saveQueue [itPlain, itPlain2] = some j ∧
      loadQueue j = Except.ok ([itPlain, itPlain2].map itemToJson) ∧
      ([itPlain, itPlain2].map itemToJson).mapM jsonToItem =
        some [itPlain, itPlain2]) ∧
    loadQueue (JsonVal.jobj []) = Except.error "Invalid queue file format." :=
  ⟨queue_roundtrip.1 [itPlain, itPlain2] (by decide),
   queue_roundtrip.2 (JsonVal.jobj []) (fun xs h => JsonVal.noConfusion h)⟩

end Ytget
